import Mathlib

/-!
Shallow embedding of the property-correlation library in src/src/props.c
(saturation pressure, thermal conductivity, molality and mole-fraction
conversions, activity coefficient, brine vapor pressure), together with
theorems settling the specification claims about it.

C `real` (double) values are modelled as real numbers; `pow(x, k)` with an
integer-valued exponent is modelled as the monomial `x ^ k`.  Diagnostic
`Message(...)` calls are modelled as propositions stating exactly the
condition under which the source emits the message; the numeric result of
each function is modelled separately, since the source always computes and
returns it regardless of any message.
-/

noncomputable section

/-- Constant `PSAT_A` from props.c. -/
def PSAT_A : ℝ := 0.01

/-- Constant `PSAT_TP` from props.c. -/
def PSAT_TP : ℝ := 338.15

/-- Constant `H2O_PC` from props.c (critical pressure of water, Pa). -/
def H2O_PC : ℝ := 22.089e6

/-- Constant `H2O_TC` from props.c (critical temperature of water, K). -/
def H2O_TC : ℝ := 647.286

/-- The local array `constants[8]` of `psat_h2o`. -/
def psat_constants : List ℝ :=
  [-7.4192420, 2.97221e-1, -1.155286e-1, 8.68563e-3,
   1.094098e-3, -4.39993e-3, 2.520658e-3, -5.218684e-4]

/-- The summation loop of `psat_h2o`: `while (i < 8) { sum1 += constants[i]*pow(var1,i); ++i; }`,
entered with loop counter `i` and accumulator `sum1`. -/
def psat_loop (var1 : ℝ) (sum1 : ℝ) (i : ℕ) : ℝ :=
  if h : i < 8 then psat_loop var1 (sum1 + psat_constants.getD i 0 * var1 ^ i) (i + 1)
  else sum1
termination_by 8 - i
decreasing_by omega

/-- `psat_h2o` from props.c: saturation pressure of water vapor (Pa) as a
function of temperature (K). -/
def psat_h2o (tsat : ℝ) : ℝ :=
  let var1 := PSAT_A * (tsat - PSAT_TP)
  let sum1 := psat_loop var1 0 0
  let ans1 := sum1 * (H2O_TC / tsat - 1.0)
  H2O_PC * Real.exp ans1

/-- Modelled from the spec: the material selector codes `PVDF`, `PTFE`, `PP`,
`PES` come from the header consts.h, which is not part of the sources; the
spec maps material codes 0,1,2,3 to PVDF, PTFE, PP, PES in that order,
indexing the 4-entry coefficient tables. -/
def PVDF : ℕ := 0

/-- Modelled from the spec: see `PVDF`. -/
def PTFE : ℕ := 1

/-- Modelled from the spec: see `PVDF`. -/
def PP : ℕ := 2

/-- Modelled from the spec: see `PVDF`. -/
def PES : ℕ := 3

/-- The local array `A[4]` of `ThermCond_Maxwell` (solid conductivity slopes). -/
def maxwell_A : List ℝ := [5.769, 5.769, 12.5, 4.167]

/-- The local array `B[4]` of `ThermCond_Maxwell` (solid conductivity offsets). -/
def maxwell_B : List ℝ := [0.9144, 8.914, -23.51, 1.452]

/-- The `switch(opt)` of `ThermCond_Maxwell`: the index `i` is initialized to 0
and assigned only in the four recognized cases; the `default` branch prints a
message and leaves `i` at its initialized value 0. -/
def maxwell_index (opt : ℤ) : ℕ :=
  if opt = 0 then PVDF
  else if opt = 1 then PTFE
  else if opt = 2 then PP
  else if opt = 3 then PES
  else 0

/-- The `default` branch of the `switch` in `ThermCond_Maxwell` emits the
message "ThermCond_Maxwell() has a wrong input argument of opt": it is reached
exactly when `opt` is none of 0,1,2,3. -/
def ThermCond_Maxwell_warns (opt : ℤ) : Prop :=
  ¬(opt = 0 ∨ opt = 1 ∨ opt = 2 ∨ opt = 3)

/-- `ThermCond_Maxwell` from props.c.  The first assignment to `kappa[GAS]`
(line 52) is immediately overwritten by the second (line 53); both are kept
here, as shadowed local bindings, mirroring the source. -/
def ThermCond_Maxwell (temp porosity : ℝ) (opt : ℤ) : ℝ :=
  let kappa_gas := 1.5e-3 * Real.sqrt temp
  let kappa_gas := 2.72e-3 + 7.77e-5 * temp
  let i := maxwell_index opt
  let kappa_solid := maxwell_A.getD i 0 * 1.e-4 * temp + maxwell_B.getD i 0 * 1.e-2
  let beta := (kappa_solid - kappa_gas) / (kappa_solid + 2 * kappa_gas)
  kappa_gas * (1 + 2 * beta * (1 - porosity)) / (1 - beta * (1 - porosity))

/-- Variant of `ThermCond_Maxwell` with the first (dead) gas-conductivity
assignment `kappa[GAS] = 1.5e-3*sqrt(temp)` removed, keeping only the second
formula `kappa[GAS] = 2.72e-3+7.77e-5*temp`. -/
def ThermCond_Maxwell_noDead (temp porosity : ℝ) (opt : ℤ) : ℝ :=
  let kappa_gas := 2.72e-3 + 7.77e-5 * temp
  let i := maxwell_index opt
  let kappa_solid := maxwell_A.getD i 0 * 1.e-4 * temp + maxwell_B.getD i 0 * 1.e-2
  let beta := (kappa_solid - kappa_gas) / (kappa_solid + 2 * kappa_gas)
  kappa_gas * (1 + 2 * beta * (1 - porosity)) / (1 - beta * (1 - porosity))

/-- The Maxwell mixing formula of `ThermCond_Maxwell` specialised to a fixed
solid-phase coefficient pair `(A, B)`: gas conductivity `2.72e-3+7.77e-5*temp`,
solid conductivity `A*1.e-4*temp+B*1.e-2`, contrast factor `beta`, and the
porosity mixing rule.  Used to state which coefficient row an invocation
actually uses. -/
def Maxwell_row (A B temp porosity : ℝ) : ℝ :=
  let kappa_gas := 2.72e-3 + 7.77e-5 * temp
  let kappa_solid := A * 1.e-4 * temp + B * 1.e-2
  let beta := (kappa_solid - kappa_gas) / (kappa_solid + 2 * kappa_gas)
  kappa_gas * (1 + 2 * beta * (1 - porosity)) / (1 - beta * (1 - porosity))

/-- The local array `A[3]` of `SatConc`. -/
def SatConc_A : List ℝ := [0.2628, 62.75e-6, 1.084e-6]

/-- `SatConc` from props.c: saturated NaCl mass fraction for a temperature
given in Kelvin; the polynomial is evaluated in `temp = t - 273.15` (Celsius). -/
def SatConc (t : ℝ) : ℝ :=
  let temp := t - 273.15
  (Finset.range 3).sum fun i => SatConc_A.getD i 0 * temp ^ i

/-- The warning condition of `SatConc`: the source tests the raw Kelvin input
`t` itself, `(t<0.)||(t>450.)`, before printing "Solubility correlation at %g C
is out of temperature range". -/
def SatConc_warning (t : ℝ) : Prop := t < 0 ∨ t > 450

/-- The divisor `1.-w` in `Convert_w2m`. -/
def Convert_w2m_divisor (w : ℝ) : ℝ := 1 - w

/-- `Convert_w2m` from props.c: NaCl mass fraction to molality,
`m = w/(1.-w)/58.4428*1000.`. -/
def Convert_w2m (w : ℝ) : ℝ :=
  w / Convert_w2m_divisor w / 58.4428 * 1000

/-- The coefficient matrix `a[3][3]` of `ThermCond_aqNaCl`. -/
def ThermCond_aqNaCl_a : List (List ℝ) :=
  [[0.5621, 0.00199, -8.6e-6],
   [-0.01394, 0.000294, -2.3e-6],
   [0.00177, -6.3e-5, 4.5e-7]]

/-- `ThermCond_aqNaCl` from props.c (numeric result): thermal conductivity of
NaCl solution, a double sum over the 3x3 table in powers of `T - 273.15` and of
the molality `m = Convert_w2m w_nacl`. -/
def ThermCond_aqNaCl (T w_nacl : ℝ) : ℝ :=
  let m := Convert_w2m w_nacl
  (Finset.range 3).sum fun i =>
    ((Finset.range 3).sum fun j =>
      (ThermCond_aqNaCl_a.getD i []).getD j 0 * (T - 273.15) ^ j) * m ^ i

/-- The temperature warning of `ThermCond_aqNaCl`: emitted when
`id_message < 2` and `(T < 295.) || (T > 365.)`.  The global `id_message` from
consts.h is modelled as an explicit parameter, as the spec directs. -/
def ThermCond_aqNaCl_warnsTemp (id_message : ℤ) (T : ℝ) : Prop :=
  id_message < 2 ∧ (T < 295 ∨ T > 365)

/-- The molality warning of `ThermCond_aqNaCl`: the source emits
"Out of molality range" when `id_message < 2` and `m <= 6.0`, where
`m = Convert_w2m w_nacl`. -/
def ThermCond_aqNaCl_warnsMolality (id_message : ℤ) (w_nacl : ℝ) : Prop :=
  id_message < 2 ∧ Convert_w2m w_nacl ≤ 6

/-- `ThermCond_aqNaCl` emits some warning message. -/
def ThermCond_aqNaCl_warns (id_message : ℤ) (T w_nacl : ℝ) : Prop :=
  ThermCond_aqNaCl_warnsTemp id_message T ∨ ThermCond_aqNaCl_warnsMolality id_message w_nacl

/-- `ConvertX` from props.c: the loop fills `r[i] = wi[i]/MW[i]` and
accumulates `sum_N`; the result is `r[imat]/sum_N`.  The arrays `MW` and `wi`
are modelled as functions on indices. -/
def ConvertX (imat nmat : ℕ) (MW wi : ℕ → ℝ) : ℝ :=
  (wi imat / MW imat) / ((Finset.range nmat).sum fun i => wi i / MW i)

/-- `ActivityCoefficient_h2o` from props.c:
`alpha_h2o = 1.-0.5*x_nv-10.*pow(x_nv, 2.)`. -/
def ActivityCoefficient_h2o (x_nv : ℝ) : ℝ :=
  1 - 0.5 * x_nv - 10 * x_nv ^ 2

/-- `WaterVaporPressure_brine` from props.c: vapor pressure of brine for a
given temperature (K) and mass fraction of water, with the two-component
molar-weight table `MW[2] = {18.01534, 58.4428}` and mass fractions
`wi[0] = mass_fraction_h2o`, `wi[1] = 1.-mass_fraction_h2o`. -/
def WaterVaporPressure_brine (temperature mass_fraction_h2o : ℝ) : ℝ :=
  let MW : ℕ → ℝ := fun i => if i = 0 then 18.01534 else 58.4428
  let wi : ℕ → ℝ := fun i => if i = 0 then mass_fraction_h2o else 1 - mass_fraction_h2o
  let x_nv := 1 - ConvertX 0 2 MW wi
  let alpha := ActivityCoefficient_h2o x_nv
  (1 - x_nv) * alpha * psat_h2o temperature

/-- C5: the value returned by `ThermCond_Maxwell` is identical to that of the
variant in which the first gas-phase conductivity formula `1.5e-3*sqrt(temp)`
is removed and only `2.72e-3+7.77e-5*temp` is kept: the first assignment is
dead code with no effect on the result, for all inputs. -/
theorem maxwell_dead_code_no_effect (temp porosity : ℝ) (opt : ℤ) :
    ThermCond_Maxwell temp porosity opt = ThermCond_Maxwell_noDead temp porosity opt := rfl

/-- C2 counterexample: called with the invalid material code 5 at
temperature 300 K and porosity 0.7, `ThermCond_Maxwell` emits its diagnostic
message but returns exactly the conductivity computed for material code 0
(the default coefficient row) — it does not report an invalid-argument error
instead of returning a default-material value. -/
theorem maxwell_invalid_opt_no_error :
    ThermCond_Maxwell_warns 5 ∧ ThermCond_Maxwell 300 0.7 5 = ThermCond_Maxwell 300 0.7 0 :=
  ⟨by unfold ThermCond_Maxwell_warns; decide, rfl⟩

/-- C2 amended: when `ThermCond_Maxwell` is called with a material code outside
{0,1,2,3}, it logs a diagnostic message and still returns the same conductivity
as for material code 0 (the default row), rather than reporting an
invalid-argument error. -/
theorem maxwell_invalid_opt_warns_and_default (temp porosity : ℝ) (opt : ℤ)
    (h : ¬(opt = 0 ∨ opt = 1 ∨ opt = 2 ∨ opt = 3)) :
    ThermCond_Maxwell_warns opt ∧
      ThermCond_Maxwell temp porosity opt = ThermCond_Maxwell temp porosity 0 := by
  refine ⟨h, ?_⟩
  push_neg at h
  obtain ⟨h0, h1, h2, h3⟩ := h
  simp [ThermCond_Maxwell, maxwell_index, PVDF, h0, h1, h2, h3]

/-- C2 amended, witness at material code 7, temperature 310 K, porosity 0.8. -/
theorem maxwell_invalid_opt_warns_and_default_witness :
    ThermCond_Maxwell_warns 7 ∧ ThermCond_Maxwell 310 0.8 7 = ThermCond_Maxwell 310 0.8 0 :=
  maxwell_invalid_opt_warns_and_default 310 0.8 7 (by decide)

/-- C10: for a material code outside {0,1,2,3}, the solid-phase coefficient
index of `ThermCond_Maxwell` keeps its initialized value 0, and the function
deterministically returns the Maxwell conductivity computed from the first
coefficient-table row (A = 5.769, B = 0.9144), a fixed well-defined function
of temperature and porosity. -/
theorem maxwell_invalid_opt_uses_row0 (temp porosity : ℝ) (opt : ℤ)
    (h : ¬(opt = 0 ∨ opt = 1 ∨ opt = 2 ∨ opt = 3)) :
    maxwell_index opt = 0 ∧
      ThermCond_Maxwell temp porosity opt = Maxwell_row 5.769 0.9144 temp porosity := by
  push_neg at h
  obtain ⟨h0, h1, h2, h3⟩ := h
  constructor
  · simp [maxwell_index, h0, h1, h2, h3]
  · simp [ThermCond_Maxwell, Maxwell_row, maxwell_index, h0, h1, h2, h3,
      maxwell_A, maxwell_B, List.getD]

/-- C10, witness at material code 9, temperature 300 K, porosity 0.7. -/
theorem maxwell_invalid_opt_uses_row0_witness :
    maxwell_index 9 = 0 ∧
      ThermCond_Maxwell 300 0.7 9 = Maxwell_row 5.769 0.9144 300 0.7 :=
  maxwell_invalid_opt_uses_row0 300 0.7 9 (by decide)

/-- C6: `Convert_w2m` returns 0 at mass fraction 0, and is strictly increasing
on the interval [0, 1): for all mass fractions `w1 < w2` in [0, 1),
`Convert_w2m w1 < Convert_w2m w2`. -/
theorem convert_w2m_zero_and_strict_mono :
    Convert_w2m 0 = 0 ∧
      ∀ w1 w2 : ℝ, 0 ≤ w1 → w1 < w2 → w2 < 1 → Convert_w2m w1 < Convert_w2m w2 := by
  constructor
  · simp [Convert_w2m, Convert_w2m_divisor]
  · intro w1 w2 h0 h12 h21
    have hd1 : (0:ℝ) < 1 - w1 := by linarith
    have hd2 : (0:ℝ) < 1 - w2 := by linarith
    have h3 : w1 / (1 - w1) < w2 / (1 - w2) := by
      rw [div_lt_div_iff hd1 hd2]
      nlinarith
    unfold Convert_w2m Convert_w2m_divisor
    exact mul_lt_mul_of_pos_right ((div_lt_div_right (by norm_num)).mpr h3) (by norm_num)

/-- C6, witness: `Convert_w2m 0 = 0` and `Convert_w2m 0 < Convert_w2m (1/2)`. -/
theorem convert_w2m_zero_and_strict_mono_witness :
    Convert_w2m 0 = 0 ∧ Convert_w2m 0 < Convert_w2m (1/2) :=
  ⟨convert_w2m_zero_and_strict_mono.1,
   convert_w2m_zero_and_strict_mono.2 0 (1/2) (by norm_num) (by norm_num) (by norm_num)⟩

/-- C8: for every mass fraction `w` in [0, 1) the divisor `1 - w` of
`Convert_w2m` is nonzero, so the division is well-defined and the
division-by-zero case is unreachable under that precondition; at mass
fraction exactly 1 the divisor is 0, i.e. the computation reaches a division
by zero, which the code does not guard. -/
theorem convert_w2m_divisor_safety :
    (∀ w : ℝ, 0 ≤ w → w < 1 → Convert_w2m_divisor w ≠ 0) ∧
      Convert_w2m_divisor 1 = 0 := by
  constructor
  · intro w _ h1
    unfold Convert_w2m_divisor
    intro h
    linarith
  · simp [Convert_w2m_divisor]

/-- C8, witness: the divisor is nonzero at mass fraction 1/2 and zero at 1. -/
theorem convert_w2m_divisor_safety_witness :
    Convert_w2m_divisor (1/2) ≠ 0 ∧ Convert_w2m_divisor 1 = 0 :=
  ⟨convert_w2m_divisor_safety.1 (1/2) (by norm_num) (by norm_num),
   convert_w2m_divisor_safety.2⟩

/-- C7: for a 2-component system with positive molar weights and mass
fractions `w` and `1 - w` (with `0 ≤ w ≤ 1`, not both zero), the mole
fractions returned by `ConvertX` for component indices 0 and 1 sum exactly
to 1. -/
theorem convertX_two_component_normalization (MW : ℕ → ℝ) (w : ℝ)
    (hMW0 : 0 < MW 0) (hMW1 : 0 < MW 1) (h0 : 0 ≤ w) (h1 : w ≤ 1)
    (hnz : ¬(w = 0 ∧ 1 - w = 0)) :
    ConvertX 0 2 MW (fun i => if i = 0 then w else 1 - w)
      + ConvertX 1 2 MW (fun i => if i = 0 then w else 1 - w) = 1 := by
  unfold ConvertX
  simp only [Finset.sum_range_succ, Finset.sum_range_zero, zero_add]
  norm_num
  have hS : 0 < w / MW 0 + (1 - w) / MW 1 := by
    rcases eq_or_lt_of_le h0 with h | h
    · have hw : (0:ℝ) < 1 - w := by rw [← h]; norm_num
      have hpos := div_pos hw hMW1
      have hzero : w / MW 0 = 0 := by rw [← h]; simp
      linarith
    · have hpos := div_pos h hMW0
      have hnn : 0 ≤ (1 - w) / MW 1 := div_nonneg (by linarith) hMW1.le
      linarith
  rw [div_add_div_same, div_self (ne_of_gt hS)]

/-- C3 failing-input evaluation: with verbosity `id_message = 0`, at
T = 300 K and NaCl mass fraction 0 (molality 0), `ThermCond_aqNaCl` does emit
a warning (its molality message fires because the source tests `m <= 6.0`),
although T lies inside [295, 365] and the molality does not exceed 6 — so the
code warns where the claim says no warning is emitted. -/
theorem aqNaCl_warning_fires_inside_claimed_range :
    ThermCond_aqNaCl_warns 0 300 0 ∧
      ¬((300:ℝ) < 295 ∨ (300:ℝ) > 365 ∨ 6 < Convert_w2m 0) := by
  constructor
  · right
    refine ⟨by norm_num, ?_⟩
    norm_num [Convert_w2m, Convert_w2m_divisor]
  · push_neg
    refine ⟨by norm_num, by norm_num, ?_⟩
    norm_num [Convert_w2m, Convert_w2m_divisor]

/-- C4 failing-input evaluation: `SatConc` compares its raw Kelvin input
against the Celsius bounds.  At t = 100 K the converted temperature
100 − 273.15 °C is below 0 °C, yet the code emits no warning (100 lies inside
[0, 450]); at t = 500 K the code does warn (500 > 450) and still returns the
extrapolated 3-term polynomial in the Celsius temperature 500 − 273.15. -/
theorem satconc_range_check_uses_kelvin :
    (¬ SatConc_warning 100 ∧ (100:ℝ) - 273.15 < 0) ∧
      (SatConc_warning 500 ∧
        SatConc 500 = 0.2628 + 62.75e-6 * (500 - 273.15)
          + 1.084e-6 * (500 - 273.15) ^ 2) := by
  refine ⟨⟨?_, by norm_num⟩, ?_, ?_⟩
  · unfold SatConc_warning
    push_neg
    norm_num
  · unfold SatConc_warning
    right
    norm_num
  · unfold SatConc
    simp [SatConc_A, Finset.sum_range_succ]

/-- C9: for every temperature T, `psat_h2o T` equals
`H2O_PC * exp(S * (H2O_TC/T - 1))` where S is the 8-term power series
`sum over i < 8 of constants[i] * x^i` evaluated at the reduced variable
`x = 0.01 * (T - 338.15)`: the summation loop computes exactly that series,
the sum is multiplied by `(H2O_TC/T - 1)`, exponentiated, and scaled by the
critical pressure of water. -/
theorem psat_h2o_series_formula (T : ℝ) :
    psat_h2o T = H2O_PC * Real.exp
      (((Finset.range 8).sum fun i => psat_constants.getD i 0 * (0.01 * (T - 338.15)) ^ i)
        * (H2O_TC / T - 1)) := by
  have general : ∀ (v : ℝ) (k i : ℕ) (s : ℝ), i + k = 8 →
      psat_loop v s i = s + (Finset.Ico i 8).sum fun j => psat_constants.getD j 0 * v ^ j := by
    intro v k
    induction k with
    | zero =>
        intro i s h
        have h8 : i = 8 := by omega
        subst h8
        rw [psat_loop, dif_neg (by omega)]
        simp
    | succ k ih =>
        intro i s h
        have hi : i < 8 := by omega
        rw [psat_loop, dif_pos hi, ih (i + 1) _ (by omega),
          Finset.sum_eq_sum_Ico_succ_bot hi]
        ring
  have hloop : ∀ v : ℝ, psat_loop v 0 0 =
      (Finset.range 8).sum fun i => psat_constants.getD i 0 * v ^ i := by
    intro v
    rw [general v 8 0 0 rfl, Finset.range_eq_Ico, zero_add]
  unfold psat_h2o
  dsimp only
  rw [hloop]
  norm_num [PSAT_A, PSAT_TP]

/-- C1: for every temperature T, `WaterVaporPressure_brine T 1` (mass fraction
of water equal to 1, i.e. pure water) equals `psat_h2o T` exactly: with zero
nonvolatile fraction the water mole fraction is 1 and the activity coefficient
is 1, so the product collapses to the pure-water saturation pressure. -/
theorem brine_vapor_pressure_pure_water (T : ℝ) :
    WaterVaporPressure_brine T 1 = psat_h2o T := by
  unfold WaterVaporPressure_brine ConvertX ActivityCoefficient_h2o
  dsimp only
  norm_num [Finset.sum_range_succ]

/-- C7, witness: with the water/NaCl molar weights 18.01534 and 58.4428 and
mass fractions 1/2 and 1 - 1/2, the two mole fractions sum to 1. -/
theorem convertX_two_component_normalization_witness :
    ConvertX 0 2 (fun i => if i = 0 then 18.01534 else 58.4428)
        (fun i => if i = 0 then (1/2 : ℝ) else 1 - 1/2)
      + ConvertX 1 2 (fun i => if i = 0 then 18.01534 else 58.4428)
        (fun i => if i = 0 then (1/2 : ℝ) else 1 - 1/2) = 1 :=
  convertX_two_component_normalization (fun i => if i = 0 then 18.01534 else 58.4428)
    (1/2) (by norm_num) (by norm_num) (by norm_num) (by norm_num) (by norm_num)
